import Mathlib

/-!
Shallow embedding of the transmit-queue lifecycle subsystem in
drivers/net/mlx5/mlx5_txq.c (DPDK mlx5 poll-mode driver): descriptor-count
resolution in mlx5_tx_queue_setup, the reference-counted Verbs queue-pair
object (mlx5_txq_ibv_new / _get / _release), Verbs object creation and its
error unwinding, control-block release (mlx5_txq_release, mlx5_txq_releasable)
and the doorbell (UAR) address-space remap pass (mlx5_tx_uar_remap).

Machine integers are modelled as Nat with explicit reductions modulo 2^16
where the C code stores into a uint16_t.  Device-control (Verbs "glue")
calls are modelled by an oracle recording which call fails with which errno,
and by event traces listing the calls actually issued.
-/

/-- Modelled from the spec: the completion threshold `MLX5_TX_COMP_THRESH`
lives in `mlx5_defs.h`, which is not under src/; the spec's worked scenario
fixes `completion_threshold = 32`. -/
def MLX5_TX_COMP_THRESH : Nat := 32

/-- Modelled from the spec: the extra completion-queue margin used when the
write-combine (eMPW) fast path is active (`MLX5_TX_COMP_THRESH_INLINE_DIV`
in `mlx5_defs.h`, not under src/).  The spec only says "extra margin"; the
exact value is irrelevant to the claims, which quantify over it only through
this constant. -/
def MLX5_TX_COMP_THRESH_INLINE_DIV : Nat := 8

/-- Modelled from the spec: the fixed completion-queue entry size the driver
assumes (`RTE_CACHE_LINE_SIZE`, external header). -/
def RTE_CACHE_LINE_SIZE : Nat := 64

/-- errno constants used by the C file (external headers). -/
def EINVAL : Nat := 22

def ENOMEM : Nat := 12

def EBUSY : Nat := 16

def ENOTSUP : Nat := 95

def EOVERFLOW : Nat := 75

/-- `desc` in `mlx5_tx_queue_setup` is a `uint16_t`; stores wrap modulo 2^16. -/
def UINT16_MOD : Nat := 65536

/-- Modelled from the spec: `log2above` (in `mlx5_utils.h`, not under src/)
returns the exponent of the next power of two, i.e. the ceiling of log2,
with `log2above 0 = 0`.  The spec's wording: "non-power-of-two counts are
rounded up to the next power of two". -/
def log2above (v : Nat) : Nat :=
  ((List.range 33).find? (fun k => v ≤ 2 ^ k)).getD 33

/-- `rte_is_power_of_2` (in `rte_common.h`, not under src/):
`n && !(n & (n - 1))`. -/
def rte_is_power_of_2 (n : Nat) : Bool :=
  n != 0 && (n &&& (n - 1)) == 0

/-- The two warnings the descriptor-count pass of `mlx5_tx_queue_setup` can
emit (both WARN, neither is an error). -/
inductive TxWarning
  /-- "number of descriptors requested ... must be higher than
  MLX5_TX_COMP_THRESH, using threshold+1 instead" -/
  | descRaised
  /-- "increased number of descriptors ... to the next power of two" -/
  | descRounded
  deriving DecidableEq

/-- The descriptor-count adjustment passage of `mlx5_tx_queue_setup`
(mlx5_txq.c:189-201): a count at or below `MLX5_TX_COMP_THRESH` is raised to
threshold+1; a non-power-of-two count is replaced by
`1 << log2above(desc)`, stored back into the `uint16_t` variable `desc`
(hence reduced modulo 2^16). -/
def tx_setup_adjust_desc (desc : Nat) : Nat × List TxWarning :=
  let step1 :=
    if desc ≤ MLX5_TX_COMP_THRESH then
      (MLX5_TX_COMP_THRESH + 1, [TxWarning.descRaised])
    else (desc, ([] : List TxWarning))
  if rte_is_power_of_2 step1.fst then step1
  else ((1 <<< log2above step1.fst) % UINT16_MOD,
        step1.snd ++ [TxWarning.descRounded])

/-- The assertion `assert(desc > MLX5_TX_COMP_THRESH)` at the top of
`mlx5_txq_new` (mlx5_txq.c:763). -/
def mlx5_txq_new_desc_assert (desc : Nat) : Bool :=
  decide (MLX5_TX_COMP_THRESH < desc)

/-! ## The Verbs Tx queue object (struct mlx5_txq_ibv) and its refcount -/

/-- Calls issued while releasing a Verbs Tx queue object, in the order of
mlx5_txq.c:594-597. -/
inductive IbvEvent
  | destroyQP
  | destroyCQ
  | listRemoveIbv
  | freeIbv
  deriving DecidableEq

/-- State of one `struct mlx5_txq_ibv`: its reference count, whether its
device objects have been destroyed, whether it is still linked in the
device's `txqsibv` registry, and the trace of teardown calls issued. -/
structure TxqIbv where
  refcnt : Nat
  destroyed : Bool
  inRegistry : Bool
  events : List IbvEvent
  deriving DecidableEq

/-- A freshly created object as left by `mlx5_txq_ibv_new` on success:
`rte_atomic32_inc(&txq_ibv->refcnt)` on zeroed memory gives refcount 1, and
`LIST_INSERT_HEAD(&priv->txqsibv, ...)` links it in the registry
(mlx5_txq.c:523,533). -/
def mlx5_txq_ibv_new_obj : TxqIbv :=
  { refcnt := 1, destroyed := false, inRegistry := true, events := [] }

/-- `mlx5_txq_ibv_get` (mlx5_txq.c:570): increments the refcount. -/
def mlx5_txq_ibv_get (o : TxqIbv) : TxqIbv :=
  { o with refcnt := o.refcnt + 1 }

/-- `mlx5_txq_ibv_release` (mlx5_txq.c:588-601):
`rte_atomic32_dec_and_test` decrements and tests for zero; at zero the
queue pair is destroyed, then the completion queue, the object is removed
from the registry and freed, and 0 is returned; otherwise 1 is returned. -/
def mlx5_txq_ibv_release (o : TxqIbv) : TxqIbv × Nat :=
  if o.refcnt - 1 == 0 then
    ({ refcnt := 0, destroyed := true, inRegistry := false,
       events := o.events ++ [IbvEvent.destroyQP, IbvEvent.destroyCQ,
                              IbvEvent.listRemoveIbv, IbvEvent.freeIbv] }, 0)
  else ({ o with refcnt := o.refcnt - 1 }, 1)

/-- `mlx5_txq_ibv_releasable` (mlx5_txq.c:610-614): refcount equals 1. -/
def mlx5_txq_ibv_releasable (o : TxqIbv) : Bool :=
  o.refcnt == 1

/-- The object after `N` acquires following creation. -/
def ibvGets : Nat → TxqIbv
  | 0 => mlx5_txq_ibv_new_obj
  | n + 1 => mlx5_txq_ibv_get (ibvGets n)

/-- The object after `k` successive releases. -/
def ibvReleases (o : TxqIbv) : Nat → TxqIbv
  | 0 => o
  | k + 1 => (mlx5_txq_ibv_release (ibvReleases o k)).fst

/-- Postcondition checked for claim C2: after `N` acquires on a fresh object
and `k ≤ N+1` releases, the object is destroyed exactly when `k = N+1`; at
that point the teardown trace is destroy-QP, destroy-CQ, registry removal,
free, and the refcount of a fresh object is 1. -/
def ibvLifecyclePost (N k : Nat) : Bool :=
  let o := ibvReleases (ibvGets N) k
  (o.destroyed == decide (N + 1 ≤ k)) &&
  (if k == N + 1 then
     (o.events == [IbvEvent.destroyQP, IbvEvent.destroyCQ,
                   IbvEvent.listRemoveIbv, IbvEvent.freeIbv]) &&
     (o.inRegistry == false) && (o.refcnt == 0)
   else (o.events == []) && o.inRegistry && (o.refcnt == N + 1 - k)) &&
  (mlx5_txq_ibv_new_obj.refcnt == 1)

/-! ## Verbs Tx queue object creation (mlx5_txq_ibv_new) -/

/-- The inputs `mlx5_txq_ibv_new` reads from the control block, the device
attributes and the selected burst function (mlx5_txq.c:369-447). -/
structure IbvParams where
  /-- `txq_data->elts_n`; `desc = 1 << txq_data->elts_n`. -/
  elts_n : Nat
  /-- `txq_data->max_inline`. -/
  max_inline : Nat
  /-- `txq_data->tso_en`. -/
  tso_en : Bool
  /-- `txq_ctrl->max_inline_data`. -/
  max_inline_data : Nat
  /-- `txq_ctrl->max_tso_header`. -/
  max_tso_header : Nat
  /-- `priv->device_attr.orig_attr.max_qp_wr`. -/
  max_qp_wr : Nat
  /-- `is_empw_burst_func(mlx5_select_tx_function(dev))`. -/
  empw : Bool
  /-- `mlx5_getenv_int("MLX5_ENABLE_CQE_COMPRESSION")` is nonzero. -/
  cqe_comp_env : Bool
  deriving DecidableEq

/-- Oracle describing the outcome of each device-control (Verbs glue) call
made by `mlx5_txq_ibv_new`: `some e` means the call fails and leaves errno
`e`; `none` means it succeeds. -/
structure GlueOracle where
  create_cq_err : Option Nat
  create_qp_err : Option Nat
  mod_init_err : Option Nat
  mod_rtr_err : Option Nat
  mod_rts_err : Option Nat
  calloc_fail : Bool
  dv_init_err : Option Nat
  /-- `cq_info.cqe_size` returned by the device query. -/
  cqe_size : Nat
  /-- whether `qp.comp_mask` carries `MLX5DV_QP_MASK_UAR_MMAP_OFFSET`. -/
  uar_offset_present : Bool
  deriving DecidableEq

/-- The QP state targets of the three sequential `modify_qp` calls. -/
inductive QpStateTarget
  | qpsInit
  | qpsRTR
  | qpsRTS
  deriving DecidableEq

/-- `attr.init.cap` of the created queue pair (mlx5_txq.c:417-432). -/
structure QpCap where
  max_send_wr : Nat
  max_send_sge : Nat
  max_inline_data : Nat
  deriving DecidableEq

/-- The `ibv_qp_init_attr_ex` fields the claims are about
(mlx5_txq.c:412-447). -/
structure QpInitAttr where
  cap : QpCap
  max_tso_header : Nat
  /-- whether `IBV_QP_INIT_ATTR_MAX_TSO_HEADER` was added to `comp_mask`. -/
  tso_comp_mask : Bool
  sq_sig_all : Nat
  deriving DecidableEq

/-- Device-control calls issued by `mlx5_txq_ibv_new`, in program order. -/
inductive GlueEvent
  | createCQ (cqe : Int)
  | createQP (attr : QpInitAttr)
  | modQP (s : QpStateTarget)
  | dvInitObj
  | destroyCQ
  | destroyQP
  | listInsertIbv
  deriving DecidableEq

/-- The completion-queue size computed at mlx5_txq.c:402-405:
`cqe_n = ((desc / MLX5_TX_COMP_THRESH) - 1) ? ((desc / MLX5_TX_COMP_THRESH) - 1) : 1`,
then `cqe_n += MLX5_TX_COMP_THRESH_INLINE_DIV` for an eMPW burst function.
`desc` is a C `int`, so the arithmetic is over Int. -/
def txq_ibv_cqe_n (desc : Int) (empw : Bool) : Int :=
  (if desc / (MLX5_TX_COMP_THRESH : Int) - 1 ≠ 0 then
     desc / (MLX5_TX_COMP_THRESH : Int) - 1
   else 1) +
  (if empw then (MLX5_TX_COMP_THRESH_INLINE_DIV : Int) else 0)

/-- The queue-pair creation attributes built at mlx5_txq.c:412-447:
`max_send_wr` is the device limit `max_qp_wr` if that is below `desc`, else
`desc`; `max_send_sge` is fixed at 1; `max_inline_data` is set from
`txq_ctrl->max_inline_data` only when `txq_data->max_inline` is nonzero;
`max_tso_header` (and its `comp_mask` bit) only when TSO is enabled. -/
def txq_ibv_qp_init_attr (p : IbvParams) : QpInitAttr :=
  let desc := 1 <<< p.elts_n
  { cap := { max_send_wr := if p.max_qp_wr < desc then p.max_qp_wr else desc,
             max_send_sge := 1,
             max_inline_data := if p.max_inline != 0 then p.max_inline_data else 0 },
    max_tso_header := if p.tso_en then p.max_tso_header else 0,
    tso_comp_mask := p.tso_en,
    sq_sig_all := 0 }

/-- Result of `mlx5_txq_ibv_new`: the created object's initial refcount, or
the errno left in `rte_errno`. -/
inductive IbvNewResult
  | ok (refcnt : Nat)
  | err (errno : Nat)
  deriving DecidableEq

/-- `mlx5_txq_ibv_new` (mlx5_txq.c:367-545) as a function of the glue-call
oracle, returning the result and the trace of device-control calls.  The
`error:` label (mlx5_txq.c:536-544) saves `rte_errno`, destroys `tmpl.cq`
if set and then `tmpl.qp` if set — in that textual order — and restores the
saved errno. -/
def mlx5_txq_ibv_new_run (p : IbvParams) (g : GlueOracle) :
    IbvNewResult × List GlueEvent :=
  if p.cqe_comp_env then (IbvNewResult.err EINVAL, [])
  else
    let cqe_n := txq_ibv_cqe_n (1 <<< p.elts_n : Nat) p.empw
    match g.create_cq_err with
    | some e => (IbvNewResult.err e, [GlueEvent.createCQ cqe_n])
    | none =>
      let evs1 := [GlueEvent.createCQ cqe_n]
      let attr := txq_ibv_qp_init_attr p
      match g.create_qp_err with
      | some e =>
        (IbvNewResult.err e,
         evs1 ++ [GlueEvent.createQP attr, GlueEvent.destroyCQ])
      | none =>
        let evs2 := evs1 ++ [GlueEvent.createQP attr]
        let cleanup := [GlueEvent.destroyCQ, GlueEvent.destroyQP]
        match g.mod_init_err with
        | some e =>
          (IbvNewResult.err e, evs2 ++ [GlueEvent.modQP QpStateTarget.qpsInit] ++ cleanup)
        | none =>
          let evs3 := evs2 ++ [GlueEvent.modQP QpStateTarget.qpsInit]
          match g.mod_rtr_err with
          | some e =>
            (IbvNewResult.err e, evs3 ++ [GlueEvent.modQP QpStateTarget.qpsRTR] ++ cleanup)
          | none =>
            let evs4 := evs3 ++ [GlueEvent.modQP QpStateTarget.qpsRTR]
            match g.mod_rts_err with
            | some e =>
              (IbvNewResult.err e, evs4 ++ [GlueEvent.modQP QpStateTarget.qpsRTS] ++ cleanup)
            | none =>
              let evs5 := evs4 ++ [GlueEvent.modQP QpStateTarget.qpsRTS]
              if g.calloc_fail then (IbvNewResult.err ENOMEM, evs5 ++ cleanup)
              else
                match g.dv_init_err with
                | some e => (IbvNewResult.err e, evs5 ++ [GlueEvent.dvInitObj] ++ cleanup)
                | none =>
                  let evs6 := evs5 ++ [GlueEvent.dvInitObj]
                  if g.cqe_size != RTE_CACHE_LINE_SIZE then
                    (IbvNewResult.err EINVAL, evs6 ++ cleanup)
                  else if !g.uar_offset_present then
                    (IbvNewResult.err EINVAL, evs6 ++ cleanup)
                  else (IbvNewResult.ok 1, evs6 ++ [GlueEvent.listInsertIbv])

/-- Recognizer for the two destruction calls, used to project the cleanup
portion out of a trace. -/
def isDestroyEvent : GlueEvent → Bool
  | GlueEvent.destroyCQ => true
  | GlueEvent.destroyQP => true
  | _ => false

/-- The errno of the first failing of the three sequential `modify_qp`
state-change calls (INIT, then RTR, then RTS); later calls are not reached
once one fails. -/
def firstModErr (g : GlueOracle) : Option Nat :=
  match g.mod_init_err with
  | some e => some e
  | none =>
    match g.mod_rtr_err with
    | some e => some e
    | none => g.mod_rts_err

/-- Postcondition for the amended claim C4: the run fails carrying the
underlying device errno `e`, and the device objects created so far are
destroyed in creation order — completion queue first, then queue pair. -/
def ibv_new_cleanup_post (p : IbvParams) (g : GlueOracle) (e : Nat) : Bool :=
  let r := mlx5_txq_ibv_new_run p g
  (r.fst == IbvNewResult.err e) &&
  (r.snd.filter isDestroyEvent == [GlueEvent.destroyCQ, GlueEvent.destroyQP])

/-- Postcondition for claim C5 about the geometry `mlx5_txq_ibv_new`
requests: completion-queue size `max(1, desc/threshold - 1)` plus the eMPW
margin, `max_send_wr = min(max_qp_wr, desc)`, gather length 1, inline and
TSO capacity from the resolved configuration. -/
def ibv_new_attr_post (p : IbvParams) : Bool :=
  let desc : Nat := 1 <<< p.elts_n
  (txq_ibv_cqe_n (desc : Nat) p.empw ==
     max 1 ((desc : Int) / (MLX5_TX_COMP_THRESH : Int) - 1) +
       (if p.empw then (MLX5_TX_COMP_THRESH_INLINE_DIV : Int) else 0)) &&
  ((txq_ibv_qp_init_attr p).cap.max_send_wr == min p.max_qp_wr desc) &&
  ((txq_ibv_qp_init_attr p).cap.max_send_sge == 1) &&
  ((txq_ibv_qp_init_attr p).cap.max_inline_data ==
     (if p.max_inline != 0 then p.max_inline_data else 0)) &&
  ((txq_ibv_qp_init_attr p).max_tso_header ==
     (if p.tso_en then p.max_tso_header else 0)) &&
  ((txq_ibv_qp_init_attr p).tso_comp_mask == p.tso_en)

/-! ## Tx queue control block (struct mlx5_txq_ctrl), release and setup -/

/-- `RTE_ALIGN_FLOOR(x, a)`: round `x` down to a multiple of the (power of
two) alignment `a`; for a power of two, `x & ~(a-1)` equals `x - x % a`. -/
def RTE_ALIGN_FLOOR (x a : Nat) : Nat := x - x % a

/-- Calls with side effects issued by `mlx5_txq_release`
(mlx5_txq.c:832-863), in program order. -/
inductive RelEvent
  | ibvReleaseEv
  | mrReleaseEv
  | munmapEv (addr size : Nat)
  | freeEltsEv
  | listRemoveEv
  | freeCtrlEv
  deriving DecidableEq

/-- One `struct mlx5_txq_ctrl`.  `id` models the object's identity (the
address returned by its `rte_calloc_socket` allocation): the allocator hands
out a fresh identity for every allocation, modelled by a per-device counter
in `Priv`.  `mrs` is the number of occupied `mp2mr[]` memory-region slots;
`elts_n` is the log2 ring size; `bf_reg` the stored doorbell address. -/
structure TxqCtrl where
  id : Nat
  refcnt : Nat
  ibv : Option TxqIbv
  mrs : Nat
  elts_n : Nat
  bf_reg : Nat
  deriving DecidableEq

/-- `mlx5_txq_releasable` (mlx5_txq.c:877-886): returns -1 when the table
slot is empty, otherwise 1 when the refcount is exactly 1 and 0 when it is
not (C `int` result). -/
def mlx5_txq_releasable (slot : Option TxqCtrl) : Int :=
  match slot with
  | none => -1
  | some txq => if txq.refcnt == 1 then 1 else 0

/-- `mlx5_txq_release` (mlx5_txq.c:832-863) acting on one table slot, with
`uar_base`/`page_size` from `priv`.  An empty slot returns 0 untouched.
Otherwise: the Verbs object is released (and the pointer cleared when that
freed it); every occupied `mp2mr[]` handle is released; if `priv->uar_base`
is set the doorbell page `RTE_ALIGN_FLOOR(bf_reg, page_size)` is munmapped
(one OS page) — note this happens on every call, before the refcount
decrement; finally `rte_atomic32_dec_and_test`: at zero the elements are
freed, the control block is unlinked, freed, the slot cleared and 0
returned, otherwise 1 is returned. -/
def mlx5_txq_release (uar_base : Option Nat) (page_size : Nat)
    (slot : Option TxqCtrl) : Option TxqCtrl × List RelEvent × Nat :=
  match slot with
  | none => (none, [], 0)
  | some txq =>
    let ibvStep : List RelEvent × Option TxqIbv :=
      match txq.ibv with
      | none => ([], none)
      | some o =>
        let rel := mlx5_txq_ibv_release o
        if rel.snd == 0 then ([RelEvent.ibvReleaseEv], none)
        else ([RelEvent.ibvReleaseEv], some rel.fst)
    let mrEvents := List.replicate txq.mrs RelEvent.mrReleaseEv
    let munmapEvents :=
      match uar_base with
      | some _ => [RelEvent.munmapEv (RTE_ALIGN_FLOOR txq.bf_reg page_size) page_size]
      | none => []
    let pre := ibvStep.fst ++ mrEvents ++ munmapEvents
    let txq2 := { txq with ibv := ibvStep.snd, mrs := 0 }
    if txq2.refcnt - 1 == 0 then
      (none, pre ++ [RelEvent.freeEltsEv, RelEvent.listRemoveEv, RelEvent.freeCtrlEv], 0)
    else (some { txq2 with refcnt := txq2.refcnt - 1 }, pre, 1)

/-- Per-port Tx offload capability bits (`DEV_TX_OFFLOAD_*`,
`rte_ethdev.h`, external header).  Only distinctness of the bits matters to
the claims. -/
def DEV_TX_OFFLOAD_VLAN_INSERT : Nat := 0x0001

def DEV_TX_OFFLOAD_IPV4_CKSUM : Nat := 0x0002

def DEV_TX_OFFLOAD_UDP_CKSUM : Nat := 0x0004

def DEV_TX_OFFLOAD_TCP_CKSUM : Nat := 0x0008

def DEV_TX_OFFLOAD_TCP_TSO : Nat := 0x0020

def DEV_TX_OFFLOAD_OUTER_IPV4_CKSUM : Nat := 0x0080

def DEV_TX_OFFLOAD_VXLAN_TNL_TSO : Nat := 0x0200

def DEV_TX_OFFLOAD_GRE_TNL_TSO : Nat := 0x0400

def DEV_TX_OFFLOAD_MULTI_SEGS : Nat := 0x8000

/-- The device-capability flags `mlx5_get_tx_port_offloads` reads from
`priv->config`. -/
structure DevConfig where
  hw_csum : Bool
  tso : Bool
  tunnel_en : Bool
  deriving DecidableEq

/-- `mlx5_get_tx_port_offloads` (mlx5_txq.c:100-122): the offload set the
device itself supports, derived from the capability flags. -/
def mlx5_get_tx_port_offloads (config : DevConfig) : Nat :=
  let offloads := DEV_TX_OFFLOAD_MULTI_SEGS ||| DEV_TX_OFFLOAD_VLAN_INSERT
  let offloads :=
    if config.hw_csum then
      offloads ||| DEV_TX_OFFLOAD_IPV4_CKSUM ||| DEV_TX_OFFLOAD_UDP_CKSUM |||
        DEV_TX_OFFLOAD_TCP_CKSUM
    else offloads
  let offloads := if config.tso then offloads ||| DEV_TX_OFFLOAD_TCP_TSO else offloads
  if config.tunnel_en then
    let offloads :=
      if config.hw_csum then offloads ||| DEV_TX_OFFLOAD_OUTER_IPV4_CKSUM
      else offloads
    if config.tso then
      offloads ||| DEV_TX_OFFLOAD_VXLAN_TNL_TSO ||| DEV_TX_OFFLOAD_GRE_TNL_TSO
    else offloads
  else offloads

/-- `mlx5_is_tx_queue_offloads_allowed` (mlx5_txq.c:136-147): the requested
per-queue offloads must be a subset of what the device supports, and must
not differ from the port-level negotiated set within the supported bits. -/
def mlx5_is_tx_queue_offloads_allowed (port_offloads : Nat) (config : DevConfig)
    (offloads : Nat) : Bool :=
  let port_supp_offloads := mlx5_get_tx_port_offloads config
  if (offloads &&& port_supp_offloads) != offloads then false
  else if ((port_offloads ^^^ offloads) &&& port_supp_offloads) != 0 then false
  else true

/-- The fields of `struct rte_eth_txconf` read by `mlx5_tx_queue_setup`:
whether `txq_flags` carries `ETH_TXQ_FLAGS_IGNORE` (set by new-API callers;
callers leaving it clear opt out of the offload check), and the requested
per-queue offload bits. -/
structure TxConf where
  txq_flags_ignore : Bool
  offloads : Nat
  deriving DecidableEq

/-- Device-scoped state read and written by `mlx5_tx_queue_setup`: the
per-device queue table (`priv->txqs`, one slot per index, sized `txqs_n`),
the negotiated port offloads (`dev->data->dev_conf.txmode.offloads`), the
capability flags, the reserved UAR window base and the OS page size, and
the allocator counter producing fresh control-block identities. -/
structure Priv where
  txqs : List (Option TxqCtrl)
  txqs_n : Nat
  port_offloads : Nat
  config : DevConfig
  uar_base : Option Nat
  page_size : Nat
  nextId : Nat
  deriving DecidableEq

/-- Result of `mlx5_tx_queue_setup`: the freshly built control block, or
the errno returned (negated in C). -/
inductive SetupOutcome
  | ok (c : TxqCtrl)
  | err (errno : Nat)
  deriving DecidableEq

/-- Everything `mlx5_tx_queue_setup` leaves behind: its result, the updated
device state, the warnings emitted, and the release-side effects of tearing
down a previous occupant of the slot. -/
structure SetupResult where
  result : SetupOutcome
  priv : Priv
  warnings : List TxWarning
  relEvents : List RelEvent
  deriving DecidableEq

/-- `mlx5_txq_new` (mlx5_txq.c:749-782), with host allocation succeeding
(`AllocationFailure` is outside the claims below): a fresh control block
with a fresh identity, refcount 1 and `elts_n = log2above(desc)`. -/
def mlx5_txq_new (priv : Priv) (desc : Nat) : TxqCtrl × Priv :=
  let ctrl : TxqCtrl :=
    { id := priv.nextId, refcnt := 1, ibv := none, mrs := 0,
      elts_n := log2above desc, bf_reg := 0 }
  (ctrl, { priv with nextId := priv.nextId + 1 })

/-- `mlx5_tx_queue_setup` (mlx5_txq.c:167-227), in source order: the
offload check (performed only when `ETH_TXQ_FLAGS_IGNORE` is set) failing
with ENOTSUP; the descriptor-count adjustments; the index-range check
failing with EOVERFLOW; the busy check (`!mlx5_txq_releasable`) failing
with EBUSY; `mlx5_txq_release` on the slot; `mlx5_txq_new`; and
registration of the new control block at the index. -/
def mlx5_tx_queue_setup (priv : Priv) (idx desc : Nat) (conf : TxConf) :
    SetupResult :=
  if conf.txq_flags_ignore &&
     !(mlx5_is_tx_queue_offloads_allowed priv.port_offloads priv.config conf.offloads) then
    { result := SetupOutcome.err ENOTSUP, priv := priv, warnings := [], relEvents := [] }
  else
    let adj := tx_setup_adjust_desc desc
    if priv.txqs_n ≤ idx then
      { result := SetupOutcome.err EOVERFLOW, priv := priv,
        warnings := adj.snd, relEvents := [] }
    else if mlx5_txq_releasable (priv.txqs.getD idx none) == 0 then
      { result := SetupOutcome.err EBUSY, priv := priv,
        warnings := adj.snd, relEvents := [] }
    else
      let rel := mlx5_txq_release priv.uar_base priv.page_size
                   (priv.txqs.getD idx none)
      let priv2 := { priv with txqs := priv.txqs.set idx rel.fst }
      let made := mlx5_txq_new priv2 adj.fst
      { result := SetupOutcome.ok made.fst,
        priv := { made.snd with txqs := made.snd.txqs.set idx (some made.fst) },
        warnings := adj.snd,
        relEvents := rel.snd.fst }

/-! ## Doorbell (UAR) address-space remap (mlx5_tx_uar_remap) -/

/-- Per-queue doorbell data read and written by `mlx5_tx_uar_remap`: the
raw doorbell address obtained from Verbs (`txq_ctrl->bf_reg_orig`), the
mmap file offset (`txq_ctrl->uar_mmap_offset`), and the usable doorbell
address stored on the queue (`txq_ctrl->txq.bf_reg`; written by the
primary process, only checked by secondaries). -/
structure UarQueueIn where
  bf_reg_orig : Nat
  uar_mmap_offset : Nat
  bf_reg : Option Nat
  deriving DecidableEq

/-- Environment of the remap pass: the reserved window base
(`priv->uar_base`), the window size (`MLX5_UAR_SIZE`, a power of two whose
mask picks the in-window offset), the OS page size, and whether this
process is the primary. -/
structure RemapEnv where
  uar_base : Nat
  uar_size : Nat
  page_size : Nat
  primary : Bool
  deriving DecidableEq

/-- A fixed mmap issued by the remap pass: target address, length, file
offset. -/
inductive MmapEvent
  | mmapFixed (addr size offset : Nat)
  deriving DecidableEq

/-- Running state of the remap loop: the physical pages already mapped
(`pages[]`), the mmap calls issued, and the queues processed so far with
their (possibly updated) stored doorbell address. -/
structure RemapState where
  pages : List Nat
  events : List MmapEvent
  done : List UarQueueIn
  deriving DecidableEq

/-- Outcome of the remap pass: normal completion, or the fatal
`assert(txq_ctrl->txq.bf_reg == RTE_PTR_ADD(addr, off))` firing in a
secondary process (mlx5_txq.c:330-331). -/
inductive RemapOutcome
  | ok (s : RemapState)
  | assertFail (s : RemapState)
  deriving DecidableEq

/-- The state carried by either outcome. -/
def remapStateOf : RemapOutcome → RemapState
  | RemapOutcome.ok s => s
  | RemapOutcome.assertFail s => s

/-- Whether the pass completed normally. -/
def remapIsOk : RemapOutcome → Bool
  | RemapOutcome.ok _ => true
  | RemapOutcome.assertFail _ => false

/-- The loop body of `mlx5_tx_uar_remap` (mlx5_txq.c:292-332) over the
queue table.  Empty slots are skipped.  For a queue: `off` is the in-page
byte offset of `bf_reg_orig`, `uar_va` its page-aligned floor; the page is
mmapped at `uar_base + (uar_va & (MLX5_UAR_SIZE - 1))` only if not already
in `pages[]` (the fixed mmap is modelled as succeeding at the requested
address; the ENXIO failure path is not modelled).  The primary stores
`addr + off` as the queue's doorbell; a secondary asserts that the stored
address is byte-identical, aborting on mismatch and never writing it. -/
def mlx5_tx_uar_remap_go (env : RemapEnv) :
    List (Option UarQueueIn) → RemapState → RemapOutcome
  | [], s => RemapOutcome.ok s
  | none :: rest, s => mlx5_tx_uar_remap_go env rest s
  | some txq :: rest, s =>
    let off := txq.bf_reg_orig % env.page_size
    let uar_va := RTE_ALIGN_FLOOR txq.bf_reg_orig env.page_size
    let addr := env.uar_base + (uar_va &&& (env.uar_size - 1))
    let s1 :=
      if uar_va ∈ s.pages then s
      else { s with pages := s.pages ++ [uar_va],
                    events := s.events ++
                      [MmapEvent.mmapFixed addr env.page_size txq.uar_mmap_offset] }
    if env.primary then
      mlx5_tx_uar_remap_go env rest
        { s1 with done := s1.done ++ [{ txq with bf_reg := some (addr + off) }] }
    else if txq.bf_reg == some (addr + off) then
      mlx5_tx_uar_remap_go env rest { s1 with done := s1.done ++ [txq] }
    else RemapOutcome.assertFail { s1 with done := s1.done ++ [txq] }

/-- `mlx5_tx_uar_remap` (mlx5_txq.c:271-334): run the loop from an empty
mapped-pages set. -/
def mlx5_tx_uar_remap (env : RemapEnv) (txqs : List (Option UarQueueIn)) :
    RemapOutcome :=
  mlx5_tx_uar_remap_go env txqs { pages := [], events := [], done := [] }

/-- The doorbell address the remap computation produces for a queue:
mapped page address `uar_base + (page & (uar_size - 1))` plus the in-page
offset of the raw doorbell. -/
def uar_expected (env : RemapEnv) (q : UarQueueIn) : Nat :=
  env.uar_base + (RTE_ALIGN_FLOOR q.bf_reg_orig env.page_size &&& (env.uar_size - 1)) +
    q.bf_reg_orig % env.page_size

/-- Invariant checked for claim C7 on the final remap state: no physical
page was mapped twice (the `pages[]` list is duplicate-free and carries one
mmap per entry), and every processed queue's stored doorbell is exactly the
mapped page address plus its in-page offset — so two queues on the same
physical page differ only by their in-page offsets. -/
def remapPost (env : RemapEnv) (s : RemapState) : Bool :=
  decide s.pages.Nodup &&
  (s.events.length == s.pages.length) &&
  s.done.all (fun q => q.bf_reg == some (uar_expected env q))

/-- Claim C7's check on a whole primary-process run: the pass completes and
`remapPost` holds. -/
def remapOkPost (env : RemapEnv) (txqs : List (Option UarQueueIn)) : Bool :=
  match mlx5_tx_uar_remap env txqs with
  | RemapOutcome.ok s => remapPost env s
  | RemapOutcome.assertFail _ => false

/-- Claim C8's check on a secondary-process run: the processed queues come
back exactly as stored by the primary (no stored doorbell address is ever
overwritten), and the pass completes normally precisely when every queue's
stored address is byte-identical to the recomputed one — any mismatch
aborts via the assert. -/
def uar_secondary_post (env : RemapEnv) (txqs : List (Option UarQueueIn)) : Bool :=
  let out := mlx5_tx_uar_remap env txqs
  let s := remapStateOf out
  let qs := txqs.filterMap id
  (s.done == qs.take s.done.length) &&
  (remapIsOk out == qs.all (fun q => q.bf_reg == some (uar_expected env q)))

/-! ## Postconditions for the setup-orchestrator claims -/

/-- Postcondition for claim C3, for a slot occupied by control block `t`:
setup fails with EBUSY exactly when `t.refcnt ≠ 1`; and when `t.refcnt = 1`
it returns a brand-new control block — different identity, refcount 1 —
registered at the index, with the old block fully torn down first (the
release trace ends with free-elements, registry-unlink, free). -/
def setup_busy_post (priv : Priv) (idx desc : Nat) (conf : TxConf)
    (t : TxqCtrl) : Bool :=
  let r := mlx5_tx_queue_setup priv idx desc conf
  ((r.result == SetupOutcome.err EBUSY) == (t.refcnt != 1)) &&
  (if t.refcnt == 1 then
     match r.result with
     | SetupOutcome.ok c =>
       (c.id != t.id) && (c.refcnt == 1) &&
       (r.priv.txqs.getD idx none == some c) &&
       (r.relEvents.reverse.take 3 ==
          [RelEvent.freeCtrlEv, RelEvent.listRemoveEv, RelEvent.freeEltsEv])
     | SetupOutcome.err _ => false
   else true)

/-- Postcondition for claim C6, for arbitrary inputs: when the caller did
not opt out (`ETH_TXQ_FLAGS_IGNORE` set) and the requested offloads fail
the device/port validation, setup fails with ENOTSUP leaving the device
state untouched — nothing allocated, no warnings, no release side effects,
no control block registered; in every other case setup never fails with
ENOTSUP. -/
def setup_offload_post (priv : Priv) (idx desc : Nat) (conf : TxConf) : Bool :=
  let r := mlx5_tx_queue_setup priv idx desc conf
  if conf.txq_flags_ignore &&
     !(mlx5_is_tx_queue_offloads_allowed priv.port_offloads priv.config conf.offloads) then
    (r.result == SetupOutcome.err ENOTSUP) && (r.priv == priv) &&
    (r.warnings == []) && (r.relEvents == [])
  else r.result != SetupOutcome.err ENOTSUP

/-- Postcondition for claim C10, for an empty slot: `mlx5_txq_releasable`
returns -1 (not 0/1), which is nonzero, so setup's busy check passes and a
new queue is built; and `mlx5_txq_release` on the empty slot returns 0 with
no side effects (setup's release call leaves no trace). -/
def setup_empty_post (priv : Priv) (idx desc : Nat) (conf : TxConf) : Bool :=
  let r := mlx5_tx_queue_setup priv idx desc conf
  (mlx5_txq_releasable none == (-1 : Int)) &&
  (mlx5_txq_releasable none != (0 : Int)) &&
  (match r.result with
   | SetupOutcome.ok _ => true
   | SetupOutcome.err _ => false) &&
  (mlx5_txq_release priv.uar_base priv.page_size none ==
     (none, ([] : List RelEvent), 0)) &&
  (r.relEvents == [])

/-! ## Helper lemmas -/

lemma getD_set_self {α : Type} :
    ∀ (l : List α) (i : Nat) (a d : α), i < l.length → (l.set i a).getD i d = a := by
  intro l
  induction l with
  | nil => intro i a d h; simp at h
  | cons x xs ih =>
    intro i a d h
    cases i with
    | zero => simp [List.set, List.getD]
    | succ n =>
      have hn : n < xs.length := by simpa using h
      simpa [List.set, List.getD] using ih n a d hn

lemma ibvGets_eq (N : Nat) :
    ibvGets N = { refcnt := N + 1, destroyed := false, inRegistry := true,
                  events := [] } := by
  induction N with
  | zero => rfl
  | succ n ih => simp [ibvGets, mlx5_txq_ibv_get, ih]

lemma ibvReleases_le (N k : Nat) (h : k ≤ N) :
    ibvReleases (ibvGets N) k =
      { refcnt := N + 1 - k, destroyed := false, inRegistry := true,
        events := [] } := by
  induction k with
  | zero => simp [ibvReleases, ibvGets_eq]
  | succ k ih =>
    have hk : k ≤ N := Nat.le_of_succ_le h
    have hr : (N + 1 - k - 1 == 0) = false := by
      simp only [beq_eq_false_iff_ne, ne_eq]
      omega
    have harith : N + 1 - k - 1 = N + 1 - (k + 1) := by omega
    rw [ibvReleases, ih hk]
    simp only [mlx5_txq_ibv_release, hr, Bool.false_eq_true, if_false]
    simp only [harith]

lemma ibvReleases_full (N : Nat) :
    ibvReleases (ibvGets N) (N + 1) =
      { refcnt := 0, destroyed := true, inRegistry := false,
        events := [IbvEvent.destroyQP, IbvEvent.destroyCQ,
                   IbvEvent.listRemoveIbv, IbvEvent.freeIbv] } := by
  have h1 : (N + 1 - N - 1 == 0) = true := by
    simp only [beq_iff_eq]
    omega
  rw [ibvReleases, ibvReleases_le N N (Nat.le_refl N)]
  simp [mlx5_txq_ibv_release, h1]

/-! ## Claims C1, C2, C9 -/

/-- Device state used for the C1 evaluation: a one-slot empty queue table. -/
def priv_c1 : Priv :=
  { txqs := [none], txqs_n := 1, port_offloads := 0,
    config := { hw_csum := false, tso := false, tunnel_en := false },
    uar_base := none, page_size := 4096, nextId := 0 }

/-- Old-API txconf (offload check opted out), no offloads requested. -/
def conf0 : TxConf := { txq_flags_ignore := false, offloads := 0 }

/-- The control block `mlx5_tx_queue_setup priv_c1 0 65535 conf0` builds:
the adjusted descriptor count has overflowed to 0, so `elts_n = log2above 0
= 0` and the ring capacity is 1. -/
def ctrl_c1 : TxqCtrl :=
  { id := 0, refcnt := 1, ibv := none, mrs := 0, elts_n := 0, bf_reg := 0 }

/-- C1: the claim says every requested descriptor count yields a ring
capacity that is a power of two and strictly above `MLX5_TX_COMP_THRESH`.
The code violates this: for the requested count 65535 (any non-power-of-two
count above 2^15), `desc = 1 << log2above(desc)` computes 65536, which the
`uint16_t` variable truncates to 0; the setup call then builds a queue of
capacity `1 << log2above(0) = 1`, which is not above the threshold, and the
code's own `assert(desc > MLX5_TX_COMP_THRESH)` in `mlx5_txq_new` is
violated.  This theorem evaluates the code at the failing input. -/
theorem claim_C1 :
    tx_setup_adjust_desc 65535 = (0, [TxWarning.descRounded]) ∧
    mlx5_txq_new_desc_assert (tx_setup_adjust_desc 65535).fst = false ∧
    (mlx5_tx_queue_setup priv_c1 0 65535 conf0).result = SetupOutcome.ok ctrl_c1 ∧
    1 <<< ctrl_c1.elts_n = 1 ∧
    decide (MLX5_TX_COMP_THRESH < 1 <<< ctrl_c1.elts_n) = false := by
  decide

/-- C2: release of the Verbs Tx queue object is the exact inverse of
create/acquire.  The object is created with refcount 1; after `N` further
acquires it is destroyed by the `(N+1)`-th release and by none earlier; at
the destroying release the queue pair is destroyed before the completion
queue (in that order) and the object is removed from the device's registry
and freed. -/
theorem claim_C2 (N k : Nat) (h : k ≤ N + 1) : ibvLifecyclePost N k = true := by
  rcases Nat.lt_or_ge k (N + 1) with h1 | h2
  · have hk : k ≤ N := by omega
    have hne : (k == N + 1) = false := by
      simp only [beq_eq_false_iff_ne, ne_eq]
      omega
    have hd : decide (N + 1 ≤ k) = false := by
      simp only [decide_eq_false_iff_not, not_le]
      omega
    simp [ibvLifecyclePost, ibvReleases_le N k hk, hne, hd, mlx5_txq_ibv_new_obj]
  · have hk : k = N + 1 := by omega
    subst hk
    simp [ibvLifecyclePost, ibvReleases_full, mlx5_txq_ibv_new_obj]

/-- Witness for C2 at N = 1: after one acquire, the object survives the
first release and is destroyed by the second. -/
theorem claim_C2_witness :
    (1 ≤ 1 + 1 ∧ ibvLifecyclePost 1 1 = true) ∧
    (2 ≤ 1 + 1 ∧ ibvLifecyclePost 1 2 = true) :=
  ⟨⟨by decide, claim_C2 1 1 (by decide)⟩, ⟨by decide, claim_C2 1 2 (by decide)⟩⟩

/-- A control block holding two references, on a device with the UAR window
reserved. -/
def txq_c9 : TxqCtrl :=
  { id := 7, refcnt := 2, ibv := none, mrs := 0, elts_n := 6, bf_reg := 0x11234 }

/-- C9: the claim says the doorbell page is munmapped only when the control
block's refcount reaches zero.  The code instead munmaps on every
`mlx5_txq_release` call, before the refcount decrement: releasing a block
with refcount 2 issues the munmap (of the page-aligned `bf_reg`, one OS
page) yet returns 1 with the block still registered and referenced.  This
theorem evaluates the code at that failing state. -/
theorem claim_C9 :
    mlx5_txq_release (some 0x100000) 4096 (some txq_c9) =
      (some { txq_c9 with refcnt := 1 },
       [RelEvent.munmapEv 0x11000 4096], 1) := by
  decide

/-! ## Claim C4 -/

/-- Control-block inputs for the C4 run: a plain 64-descriptor queue. -/
def ibvp_c4 : IbvParams :=
  { elts_n := 6, max_inline := 0, tso_en := false, max_inline_data := 0,
    max_tso_header := 0, max_qp_wr := 16384, empw := false,
    cqe_comp_env := false }

/-- Glue oracle for the C4 run: both creations succeed and the first
state-change call (to INIT) fails with errno 5. -/
def glue_c4 : GlueOracle :=
  { create_cq_err := none, create_qp_err := none, mod_init_err := some 5,
    mod_rtr_err := none, mod_rts_err := none, calloc_fail := false,
    dv_init_err := none, cqe_size := 64, uar_offset_present := true }

/-- C4 counterexample: the claim says a failing state-change call releases
the objects created so far in reverse creation order, queue pair before
completion queue.  At this concrete input the error path of
`mlx5_txq_ibv_new` destroys the completion queue first and then the queue
pair — creation order, not its reverse — while it does return the
underlying errno. -/
theorem claim_C4_cex :
    (mlx5_txq_ibv_new_run ibvp_c4 glue_c4).snd.filter isDestroyEvent =
      [GlueEvent.destroyCQ, GlueEvent.destroyQP] ∧
    (mlx5_txq_ibv_new_run ibvp_c4 glue_c4).fst = IbvNewResult.err 5 ∧
    ([GlueEvent.destroyCQ, GlueEvent.destroyQP] ==
      [GlueEvent.destroyQP, GlueEvent.destroyCQ]) = false := by
  decide

/-- C4 (amended): if any of the three sequential state-change calls fails,
all device objects created so far are released — in creation order, the
completion queue before the queue pair — and the underlying device errno is
signalled to the caller. -/
theorem claim_C4 (p : IbvParams) (g : GlueOracle) (e : Nat)
    (henv : p.cqe_comp_env = false)
    (hcq : g.create_cq_err = none)
    (hqp : g.create_qp_err = none)
    (hmod : firstModErr g = some e) :
    ibv_new_cleanup_post p g e = true := by
  obtain ⟨cce, cqp, mi, mrr, mts, cf, dv, cs, uo⟩ := g
  simp only at hcq hqp hmod
  subst hcq
  subst hqp
  unfold firstModErr at hmod
  simp only at hmod
  cases mi with
  | some e1 =>
    simp only [Option.some.injEq] at hmod
    subst hmod
    simp [ibv_new_cleanup_post, mlx5_txq_ibv_new_run, henv, isDestroyEvent]
  | none =>
    cases mrr with
    | some e1 =>
      simp only [Option.some.injEq] at hmod
      subst hmod
      simp [ibv_new_cleanup_post, mlx5_txq_ibv_new_run, henv, isDestroyEvent]
    | none =>
      cases mts with
      | some e1 =>
        simp only [Option.some.injEq] at hmod
        subst hmod
        simp [ibv_new_cleanup_post, mlx5_txq_ibv_new_run, henv, isDestroyEvent]
      | none => simp at hmod

/-- Oracle for the C4 witness: the second state-change call (to RTR) fails
with errno 7. -/
def glue_c4w : GlueOracle :=
  { glue_c4 with mod_init_err := none, mod_rtr_err := some 7 }

/-- Witness for the amended C4 at a concrete run where the RTR transition
fails. -/
theorem claim_C4_witness :
    ibvp_c4.cqe_comp_env = false ∧ glue_c4w.create_cq_err = none ∧
    glue_c4w.create_qp_err = none ∧ firstModErr glue_c4w = some 7 ∧
    ibv_new_cleanup_post ibvp_c4 glue_c4w 7 = true :=
  ⟨by decide, by decide, by decide, by decide,
   claim_C4 ibvp_c4 glue_c4w 7 (by decide) (by decide) (by decide) (by decide)⟩

/-! ## Claim C5 -/

/-- C5: given the precondition `desc > MLX5_TX_COMP_THRESH` (with
`desc = 1 << elts_n`), `mlx5_txq_ibv_new` sizes the completion queue as
`max(1, desc / MLX5_TX_COMP_THRESH - 1)` entries plus
`MLX5_TX_COMP_THRESH_INLINE_DIV` extra entries exactly when the eMPW fast
path is active, and creates the queue pair with
`max_send_wr = min(max_qp_wr, desc)`, `max_send_sge = 1`, and inline-data /
TSO-header capacity taken from the resolved configuration. -/
theorem claim_C5 (p : IbvParams)
    (h : MLX5_TX_COMP_THRESH < 1 <<< p.elts_n) :
    ibv_new_attr_post p = true := by
  have hd : (64 : Nat) ≤ 1 <<< p.elts_n := by
    have h2 : (2 : Nat) ^ 5 < 2 ^ p.elts_n := by
      simpa [MLX5_TX_COMP_THRESH, Nat.shiftLeft_eq] using h
    have h3 : 5 < p.elts_n := (Nat.pow_lt_pow_iff_right (by norm_num)).mp h2
    calc (64 : Nat) = 2 ^ 6 := by norm_num
      _ ≤ 2 ^ p.elts_n := Nat.pow_le_pow_right (by norm_num) h3
      _ = 1 <<< p.elts_n := by rw [Nat.shiftLeft_eq, one_mul]
  have h32 : (MLX5_TX_COMP_THRESH : Int) = 32 := by norm_num [MLX5_TX_COMP_THRESH]
  have hdint : (64 : Int) ≤ ((1 <<< p.elts_n : Nat) : Int) := by exact_mod_cast hd
  have hone : (1 : Int) ≤ ((1 <<< p.elts_n : Nat) : Int) / (MLX5_TX_COMP_THRESH : Int) - 1 := by
    rw [h32]
    omega
  have hne : ((1 <<< p.elts_n : Nat) : Int) / (MLX5_TX_COMP_THRESH : Int) - 1 ≠ 0 := by
    rw [h32]
    rw [h32] at hone
    omega
  have hmax : max (1 : Int) (((1 <<< p.elts_n : Nat) : Int) / (MLX5_TX_COMP_THRESH : Int) - 1) =
      ((1 <<< p.elts_n : Nat) : Int) / (MLX5_TX_COMP_THRESH : Int) - 1 :=
    max_eq_right hone
  have hmin : (if p.max_qp_wr < 1 <<< p.elts_n then p.max_qp_wr else 1 <<< p.elts_n) =
      min p.max_qp_wr (1 <<< p.elts_n) := by
    rcases Nat.lt_or_ge p.max_qp_wr (1 <<< p.elts_n) with hlt | hge
    · rw [if_pos hlt, Nat.min_eq_left (Nat.le_of_lt hlt)]
    · rw [if_neg (Nat.not_lt.mpr hge), Nat.min_eq_right hge]
  unfold ibv_new_attr_post txq_ibv_cqe_n txq_ibv_qp_init_attr
  simp only [hmax, if_pos hne, hmin]
  simp

/-- Parameters for the C5 witness: a 64-descriptor TSO queue on the eMPW
fast path. -/
def ibvp_c5 : IbvParams :=
  { elts_n := 6, max_inline := 1, tso_en := true, max_inline_data := 128,
    max_tso_header := 192, max_qp_wr := 16384, empw := true,
    cqe_comp_env := false }

/-- Witness for C5 at the concrete 64-descriptor queue. -/
theorem claim_C5_witness :
    MLX5_TX_COMP_THRESH < 1 <<< ibvp_c5.elts_n ∧
    ibv_new_attr_post ibvp_c5 = true :=
  ⟨by decide, claim_C5 ibvp_c5 (by decide)⟩

/-! ## Claims C3, C6, C10 -/

lemma getD_some_lt_length {α : Type} :
    ∀ (l : List (Option α)) (i : Nat) (t : α),
      l.getD i none = some t → i < l.length := by
  intro l
  induction l with
  | nil => intro i t h; simp [List.getD] at h
  | cons x xs ih =>
    intro i t h
    cases i with
    | zero => simp
    | succ n =>
      have := ih n t (by simpa [List.getD] using h)
      simpa using Nat.succ_lt_succ this


/-- C3: when setup finds the slot at `queue_index` occupied by control
block `t` (with the offload gate passing and the index in range), it fails
with EBUSY exactly when `t`'s refcount is not 1; when the refcount is 1 the
old block is fully torn down first (the release trace ends with
free-elements, registry-unlink, free) and setup registers a brand-new
control block with a different identity and refcount 1 at the index. -/
theorem claim_C3 (priv : Priv) (idx desc : Nat) (conf : TxConf) (t : TxqCtrl)
    (hslot : priv.txqs.getD idx none = some t)
    (hidx : idx < priv.txqs_n)
    (hguard : (conf.txq_flags_ignore &&
      !(mlx5_is_tx_queue_offloads_allowed priv.port_offloads priv.config
          conf.offloads)) = false)
    (hfresh : t.id < priv.nextId) :
    setup_busy_post priv idx desc conf t = true := by
  have hlen : idx < priv.txqs.length := getD_some_lt_length priv.txqs idx t hslot
  have hidx2 : ¬ priv.txqs_n ≤ idx := by omega
  obtain ⟨tid, trc, tibv, tmrs, telts, tbf⟩ := t
  simp only at hfresh
  unfold setup_busy_post mlx5_tx_queue_setup
  simp only [hguard, Bool.false_eq_true, if_false, if_neg hidx2]
  rw [hslot]
  by_cases hrc : trc = 1
  · subst hrc
    have hid : (priv.nextId != tid) = true := by
      simp only [bne_iff_ne, ne_eq]
      omega
    cases tibv with
    | none =>
      simp [mlx5_txq_releasable, mlx5_txq_release, mlx5_txq_new, hid,
            getD_set_self, hlen]
    | some o =>
      simp [mlx5_txq_releasable, mlx5_txq_release, mlx5_txq_new, hid,
            getD_set_self, hlen, mlx5_txq_ibv_release]
  · simp [mlx5_txq_releasable, hrc]

/-- Control block occupying slot 0 for the C3 witness: refcount 1, hence
releasable. -/
def ctrl_c3 : TxqCtrl :=
  { id := 2, refcnt := 1, ibv := none, mrs := 0, elts_n := 6, bf_reg := 0 }

/-- Device state for the C3 witness: slot 0 busy with `ctrl_c3`. -/
def priv_c3 : Priv :=
  { txqs := [some ctrl_c3], txqs_n := 1, port_offloads := 0,
    config := { hw_csum := false, tso := false, tunnel_en := false },
    uar_base := none, page_size := 4096, nextId := 5 }

/-- Witness for C3 at the concrete busy-but-releasable slot. -/
theorem claim_C3_witness :
    priv_c3.txqs.getD 0 none = some ctrl_c3 ∧ 0 < priv_c3.txqs_n ∧
    (conf0.txq_flags_ignore &&
      !(mlx5_is_tx_queue_offloads_allowed priv_c3.port_offloads priv_c3.config
          conf0.offloads)) = false ∧
    ctrl_c3.id < priv_c3.nextId ∧
    setup_busy_post priv_c3 0 512 conf0 ctrl_c3 = true :=
  ⟨by decide, by decide, by decide, by decide,
   claim_C3 priv_c3 0 512 conf0 ctrl_c3 (by decide) (by decide) (by decide)
     (by decide)⟩

/-- C6: setup validates the per-queue offload request against the device's
supported set and the port-level negotiated set — unless the caller opted
out by leaving `ETH_TXQ_FLAGS_IGNORE` clear — and on a mismatch fails with
ENOTSUP before any allocation, leaving the device state untouched and no
control block registered; in every other situation setup never returns
ENOTSUP. -/
theorem claim_C6 (priv : Priv) (idx desc : Nat) (conf : TxConf) :
    setup_offload_post priv idx desc conf = true := by
  unfold setup_offload_post mlx5_tx_queue_setup
  by_cases hg : (conf.txq_flags_ignore &&
      !(mlx5_is_tx_queue_offloads_allowed priv.port_offloads priv.config
          conf.offloads)) = true
  · simp [hg]
  · have hg2 : (conf.txq_flags_ignore &&
        !(mlx5_is_tx_queue_offloads_allowed priv.port_offloads priv.config
            conf.offloads)) = false := by
      revert hg
      cases conf.txq_flags_ignore &&
        !(mlx5_is_tx_queue_offloads_allowed priv.port_offloads priv.config
            conf.offloads) <;> simp
    simp only [hg2, Bool.false_eq_true, if_false]
    by_cases h1 : priv.txqs_n ≤ idx
    · simp [h1, EOVERFLOW, ENOTSUP]
    · simp only [if_neg h1]
      by_cases h2 : (mlx5_txq_releasable (priv.txqs.getD idx none) == 0) = true
      · rw [if_pos h2]
        simp [EBUSY, ENOTSUP]
      · rw [if_neg h2]
        simp

/-- C10: an empty table slot makes `mlx5_txq_releasable` return -1 rather
than 0/1; being nonzero, setup's busy check passes and a new queue is
built, and `mlx5_txq_release` on the empty slot returns 0 with no side
effects. -/
theorem claim_C10 (priv : Priv) (idx desc : Nat) (conf : TxConf)
    (hslot : priv.txqs.getD idx none = none)
    (hidx : idx < priv.txqs_n)
    (hguard : (conf.txq_flags_ignore &&
      !(mlx5_is_tx_queue_offloads_allowed priv.port_offloads priv.config
          conf.offloads)) = false) :
    setup_empty_post priv idx desc conf = true := by
  have hidx2 : ¬ priv.txqs_n ≤ idx := by omega
  unfold setup_empty_post mlx5_tx_queue_setup
  simp only [hguard, Bool.false_eq_true, if_false, if_neg hidx2]
  rw [hslot]
  simp [mlx5_txq_releasable, mlx5_txq_release]

/-- Witness for C10: slot 0 of `priv_c1` is empty. -/
theorem claim_C10_witness :
    priv_c1.txqs.getD 0 none = none ∧ 0 < priv_c1.txqs_n ∧
    (conf0.txq_flags_ignore &&
      !(mlx5_is_tx_queue_offloads_allowed priv_c1.port_offloads priv_c1.config
          conf0.offloads)) = false ∧
    setup_empty_post priv_c1 0 512 conf0 = true :=
  ⟨by decide, by decide, by decide,
   claim_C10 priv_c1 0 512 conf0 (by decide) (by decide) (by decide)⟩

/-! ## Claims C7 and C8 -/

lemma remap_go_primary (env : RemapEnv) (hp : env.primary = true) :
    ∀ (rest : List (Option UarQueueIn)) (s : RemapState),
      remapPost env s = true →
      ∃ s2, mlx5_tx_uar_remap_go env rest s = RemapOutcome.ok s2 ∧
        remapPost env s2 = true := by
  intro rest
  induction rest with
  | nil =>
    intro s hs
    exact ⟨s, rfl, hs⟩
  | cons q rest ih =>
    intro s hs
    cases q with
    | none =>
      simp only [mlx5_tx_uar_remap_go]
      exact ih s hs
    | some txq =>
      simp only [mlx5_tx_uar_remap_go, hp, if_true]
      apply ih
      unfold remapPost at hs ⊢
      simp only [Bool.and_eq_true, decide_eq_true_eq, beq_iff_eq,
        List.all_append, List.all_cons, List.all_nil, Bool.and_true] at hs ⊢
      obtain ⟨⟨h1, h2⟩, h3⟩ := hs
      by_cases hmem : RTE_ALIGN_FLOOR txq.bf_reg_orig env.page_size ∈ s.pages
      · simp only [if_pos hmem]
        refine ⟨⟨h1, h2⟩, h3, ?_⟩
        simp [uar_expected]
      · simp only [if_neg hmem]
        refine ⟨⟨?_, ?_⟩, h3, ?_⟩
        · simp [List.nodup_append, h1, hmem]
        · simp [h2]
        · simp [uar_expected]

/-- C7: after the doorbell remap pass in the primary process, each distinct
physical doorbell page was mapped at most once (`pages[]` is duplicate-free
with exactly one fixed mmap per entry), and every queue's doorbell address
is the shared mapped-page address `uar_base + (page & (MLX5_UAR_SIZE - 1))`
plus the queue's own in-page offset — so queues on the same physical page
differ only by their in-page offsets. -/
theorem claim_C7 (env : RemapEnv) (txqs : List (Option UarQueueIn))
    (hp : env.primary = true) : remapOkPost env txqs = true := by
  have hinit : remapPost env { pages := [], events := [], done := [] } = true := by
    simp [remapPost]
  obtain ⟨s2, hrun, hpost⟩ := remap_go_primary env hp txqs _ hinit
  unfold remapOkPost mlx5_tx_uar_remap
  rw [hrun]
  exact hpost

lemma remap_go_secondary (env : RemapEnv) (hp : env.primary = false) :
    ∀ (rest : List (Option UarQueueIn)) (s : RemapState),
      (∃ m, (remapStateOf (mlx5_tx_uar_remap_go env rest s)).done =
          s.done ++ (rest.filterMap id).take m) ∧
      remapIsOk (mlx5_tx_uar_remap_go env rest s) =
        (rest.filterMap id).all
          (fun q => q.bf_reg == some (uar_expected env q)) := by
  intro rest
  induction rest with
  | nil =>
    intro s
    exact ⟨⟨0, by simp [mlx5_tx_uar_remap_go, remapStateOf]⟩,
           by simp [mlx5_tx_uar_remap_go, remapIsOk]⟩
  | cons q rest ih =>
    intro s
    cases q with
    | none =>
      simp only [mlx5_tx_uar_remap_go, List.filterMap_cons]
      exact ih s
    | some txq =>
      simp only [mlx5_tx_uar_remap_go, hp, Bool.false_eq_true, if_false,
        List.filterMap_cons]
      by_cases hb : (txq.bf_reg ==
          some (env.uar_base +
            (RTE_ALIGN_FLOOR txq.bf_reg_orig env.page_size &&& (env.uar_size - 1)) +
            txq.bf_reg_orig % env.page_size)) = true
      · simp only [if_pos hb]
        obtain ⟨⟨m, hd⟩, hok⟩ := ih
          { pages := (if RTE_ALIGN_FLOOR txq.bf_reg_orig env.page_size ∈ s.pages
              then s
              else { s with
                pages := s.pages ++ [RTE_ALIGN_FLOOR txq.bf_reg_orig env.page_size],
                events := s.events ++
                  [MmapEvent.mmapFixed
                    (env.uar_base +
                      (RTE_ALIGN_FLOOR txq.bf_reg_orig env.page_size &&&
                        (env.uar_size - 1)))
                    env.page_size txq.uar_mmap_offset] }).pages,
            events := (if RTE_ALIGN_FLOOR txq.bf_reg_orig env.page_size ∈ s.pages
              then s
              else { s with
                pages := s.pages ++ [RTE_ALIGN_FLOOR txq.bf_reg_orig env.page_size],
                events := s.events ++
                  [MmapEvent.mmapFixed
                    (env.uar_base +
                      (RTE_ALIGN_FLOOR txq.bf_reg_orig env.page_size &&&
                        (env.uar_size - 1)))
                    env.page_size txq.uar_mmap_offset] }).events,
            done := (if RTE_ALIGN_FLOOR txq.bf_reg_orig env.page_size ∈ s.pages
              then s
              else { s with
                pages := s.pages ++ [RTE_ALIGN_FLOOR txq.bf_reg_orig env.page_size],
                events := s.events ++
                  [MmapEvent.mmapFixed
                    (env.uar_base +
                      (RTE_ALIGN_FLOOR txq.bf_reg_orig env.page_size &&&
                        (env.uar_size - 1)))
                    env.page_size txq.uar_mmap_offset] }).done ++ [txq] }
        constructor
        · refine ⟨m + 1, ?_⟩
          rw [hd]
          simp only [apply_ite RemapState.done, ite_self, List.take_succ_cons,
            List.append_assoc, List.cons_append, List.nil_append]
          simp
        · rw [hok]
          simp [List.all_cons, uar_expected, hb]
      · simp only [if_neg hb]
        constructor
        · refine ⟨1, ?_⟩
          simp only [remapStateOf, apply_ite RemapState.done, ite_self,
            List.take_succ_cons, List.take_zero]
          simp
        · have hb2 : (txq.bf_reg ==
              some (env.uar_base +
                (RTE_ALIGN_FLOOR txq.bf_reg_orig env.page_size &&& (env.uar_size - 1)) +
                txq.bf_reg_orig % env.page_size)) = false := by
            revert hb
            cases txq.bf_reg ==
              some (env.uar_base +
                (RTE_ALIGN_FLOOR txq.bf_reg_orig env.page_size &&& (env.uar_size - 1)) +
                txq.bf_reg_orig % env.page_size) <;> simp
          simp [remapIsOk, List.all_cons, uar_expected, hb2]

/-- C8: in a secondary process, the remap pass never overwrites the stored
doorbell address (the processed queues come back exactly as the primary
stored them), and it completes normally precisely when every queue's stored
address is byte-identical to the recomputed one — any mismatch makes the
fatal address-consistency assertion fire, aborting the pass. -/
theorem claim_C8 (env : RemapEnv) (txqs : List (Option UarQueueIn))
    (hp : env.primary = false) : uar_secondary_post env txqs = true := by
  obtain ⟨⟨m, hd⟩, hok⟩ :=
    remap_go_secondary env hp txqs { pages := [], events := [], done := [] }
  unfold uar_secondary_post mlx5_tx_uar_remap
  simp only [Bool.and_eq_true, beq_iff_eq]
  constructor
  · rw [hd]
    simp only [List.nil_append]
    apply (List.take_eq_take).mpr
    simp only [List.length_take]
    omega
  · rw [hok]

/-- Primary-process environment for the C7 witness. -/
def env_c7 : RemapEnv :=
  { uar_base := 0x7f0000000000, uar_size := 0x100000000, page_size := 4096,
    primary := true }

/-- Three queues for the C7 witness, the first two sharing one physical
doorbell page. -/
def txqs_c7 : List (Option UarQueueIn) :=
  [some { bf_reg_orig := 0x1000800, uar_mmap_offset := 0, bf_reg := none },
   none,
   some { bf_reg_orig := 0x1000900, uar_mmap_offset := 0, bf_reg := none },
   some { bf_reg_orig := 0x2000100, uar_mmap_offset := 4096, bf_reg := none }]

/-- Witness for C7 on a concrete primary-process run with a shared page. -/
theorem claim_C7_witness :
    env_c7.primary = true ∧ remapOkPost env_c7 txqs_c7 = true :=
  ⟨by decide, claim_C7 env_c7 txqs_c7 (by decide)⟩

/-- Secondary-process environment for the C8 witness. -/
def env_c8 : RemapEnv :=
  { env_c7 with primary := false }

/-- Queues for the C8 witness: the first stores the address the primary
computed, the second stores a disagreeing address, so the pass aborts. -/
def txqs_c8 : List (Option UarQueueIn) :=
  [some { bf_reg_orig := 0x1000800, uar_mmap_offset := 0,
          bf_reg := some (uar_expected env_c8
            { bf_reg_orig := 0x1000800, uar_mmap_offset := 0, bf_reg := none }) },
   some { bf_reg_orig := 0x2000100, uar_mmap_offset := 4096, bf_reg := some 0 }]

/-- Witness for C8 on a concrete secondary-process run containing a
mismatching stored address. -/
theorem claim_C8_witness :
    env_c8.primary = false ∧ uar_secondary_post env_c8 txqs_c8 = true :=
  ⟨by decide, claim_C8 env_c8 txqs_c8 (by decide)⟩
